import Mathlib

/-!
Shallow embedding of the `PostgresStore` write path of the pirsch
analytics store (`src/postgres.go`), together with theorems checking the
natural-language specification against it.

The database tables are modelled as Lean lists of rows; SQL statements are
translated predicate-by-predicate from the query strings in the source.
The SQL engine's per-statement success/failure is modelled by explicit
oracle parameters (`engineOk : Bool`, `GetResult`), since the embedding
cannot observe a real connection.
-/

set_option autoImplicit false

namespace Pirsch

/-- `sql.NullInt64`: an optional tenant id. `none` is the NULL / global scope. -/
abbrev TenantId := Option Int

/-- The uniform tenant-scope predicate appearing in every query of the source:
`($1::bigint IS NULL OR tenant_id = $1)`.  Note SQL equality with a NULL
`tenant_id` column is not true, so a concrete scope only matches rows whose
tenant id is present and equal. -/
def scopeMatch (scope : TenantId) (rowTenant : TenantId) : Bool :=
  match scope with
  | none => true
  | some t => rowTenant == some t

/-- One raw hit (`Hit` entity): the fourteen fields inserted by `SaveHits`.
Timestamps are modelled as seconds (`Nat`); `INTERVAL '1 day'` is 86400. -/
structure Hit where
  tenantId : TenantId
  fingerprint : String
  path : String
  url : String
  language : String
  userAgent : String
  ref : String
  os : String
  osVersion : String
  browser : String
  browserVersion : String
  desktop : Bool
  mobile : Bool
  time : Nat
deriving DecidableEq, Repr

/-- A bound SQL parameter value. -/
inductive Value where
  | tenant (t : TenantId)
  | str (s : String)
  | bool (b : Bool)
  | time (t : Nat)
deriving DecidableEq, Repr

/-- The fourteen arguments appended for one hit by the loop in `SaveHits`,
in source order. -/
def hitArgs (h : Hit) : List Value :=
  [Value.tenant h.tenantId, Value.str h.fingerprint, Value.str h.path,
   Value.str h.url, Value.str h.language, Value.str h.userAgent,
   Value.str h.ref, Value.str h.os, Value.str h.osVersion,
   Value.str h.browser, Value.str h.browserVersion,
   Value.bool h.desktop, Value.bool h.mobile, Value.time h.time]

/-- The constant statement header written first by `SaveHits` (note the
trailing space before the value tuples). -/
def hitInsertHeader : String :=
  "INSERT INTO \"hit\" (tenant_id, fingerprint, path, url, language, user_agent, ref, os, os_version, browser, browser_version, desktop, mobile, time) VALUES "

/-- One `($i+1, ..., $i+14),` placeholder group, as produced by the
`fmt.Sprintf` in the loop body (with `index = i*14`), trailing comma included. -/
def placeholderGroup (index : Nat) : String :=
  "(" ++ String.intercalate ", " ((List.range 14).map (fun j => "$" ++ toString (index + j + 1))) ++ "),"

/-- The value-tuple part of the statement for `n` hits: the loop writes one
group per hit, the group text depending only on the running index. -/
def hitQueryBody (n : Nat) : String :=
  String.join ((List.range n).map (fun i => placeholderGroup (i * 14)))

/-- The full statement text built by `SaveHits` before the final slice. -/
def buildHitQuery (hits : List Hit) : String :=
  hitInsertHeader ++ hitQueryBody hits.length

/-- The flat argument list built by the loop (per hit, fourteen values). -/
def buildHitArgs (hits : List Hit) : List Value :=
  (hits.map hitArgs).flatten

/-- The statement actually executed: `queryStr[:len(queryStr)-1]`, i.e. the
text with its final byte removed (the trailing comma for a non-empty batch,
the trailing space of the header for an empty one). -/
def hitQueryFinal (hits : List Hit) : String :=
  (buildHitQuery hits).dropRight 1

/-- The well-formed multi-row insert statement for `n ≥ 1` value tuples;
for `n = 0` the text ends in `VALUES` with no tuple and is not valid SQL. -/
def validHitInsert (n : Nat) : String :=
  (hitInsertHeader ++ hitQueryBody n).dropRight 1

/-- Split a flat argument list into rows of fourteen values. -/
def chunk14 (args : List Value) : List (List Value) :=
  match args with
  | [] => []
  | a :: rest => (a :: rest.take 13) :: chunk14 (rest.drop 13)
termination_by args.length
decreasing_by
  simp [List.length_drop]
  omega

/-- Decode one fourteen-value row back into a hit; any other shape is a
type/arity error. -/
def decodeHit : List Value → Option Hit
  | [Value.tenant t, Value.str fp, Value.str p, Value.str u, Value.str l,
     Value.str ua, Value.str r, Value.str os, Value.str osv, Value.str b,
     Value.str bv, Value.bool d, Value.bool m, Value.time tm] =>
      some ⟨t, fp, p, u, l, ua, r, os, osv, b, bv, d, m, tm⟩
  | _ => none

/-- Model of the engine executing the single multi-row insert of `SaveHits`:
a single statement either applies entirely or fails with no effect
(`engineOk = false` models a connection/statement failure).  The statement is
accepted only when it is the well-formed insert for `n ≥ 1` rows matching the
argument count; otherwise it is a syntax error. -/
def execHitInsert (engineOk : Bool) (table : List Hit) (q : String)
    (args : List Value) : Except Unit (List Hit) :=
  if engineOk = false then Except.error ()
  else
    let n := args.length / 14
    if args.length = 14 * n ∧ 1 ≤ n ∧ q = validHitInsert n then
      match (chunk14 args).mapM decodeHit with
      | some hs => Except.ok (table ++ hs)
      | none => Except.error ()
    else Except.error ()

/-- `SaveHits`: builds the statement text and flat argument list in one pass
over `hits`, slices off the final character, and executes the result as one
statement against the `hit` table. -/
def saveHits (engineOk : Bool) (table : List Hit) (hits : List Hit) :
    Except Unit (List Hit) :=
  execHitInsert engineOk table (hitQueryFinal hits) (buildHitArgs hits)

/-! ## Reading and purging raw hits (`Days`, `Paths`, `DeleteHitsByDay`) -/

/-- `date("time")`: the calendar day of a timestamp (days of 86400 seconds). -/
def dateOf (t : Nat) : Nat := t / 86400

/-- Helper of `distinct`: drop every value already seen. -/
def distinctAux {α : Type} [DecidableEq α] (seen : List α) : List α → List α
  | [] => []
  | a :: rest =>
      if a ∈ seen then distinctAux seen rest
      else a :: distinctAux (a :: seen) rest

/-- First-occurrence model of `SELECT DISTINCT` over the scan order of the
rows: keep the first occurrence of every value.  The source queries carry no
`ORDER BY`, so no further ordering is applied. -/
def distinct {α : Type} [DecidableEq α] (l : List α) : List α :=
  distinctAux [] l

/-- `Days`: `SELECT DISTINCT date("time") FROM "hit" WHERE scope AND
date("time") < current_date` — no `ORDER BY` clause.  `today` is the engine's
`current_date`. -/
def days (today : Nat) (tenantId : TenantId) (hits : List Hit) : List Nat :=
  distinct
    ((hits.filter
        (fun h => scopeMatch tenantId h.tenantId && decide (dateOf h.time < today))).map
      (fun h => dateOf h.time))

/-- Modelled from the spec: the `hit` table's columns (§6 persisted schema,
matching the column list of the `INSERT` in `SaveHits`); the schema file
itself is not part of `src/`.  There is no `day` column. -/
def hitTableColumns : List String :=
  ["tenant_id", "fingerprint", "path", "url", "language", "user_agent",
   "ref", "os", "os_version", "browser", "browser_version", "desktop",
   "mobile", "time"]

/-- The `hit` columns referenced by the query of `Paths`:
`SELECT DISTINCT "path" FROM "hit" WHERE ($1 IS NULL OR tenant_id = $1)
AND "day" = $2`. -/
def pathsQueryColumns : List String := ["path", "tenant_id", "day"]

/-- `Paths`: the statement is executed only if every column it references
exists in the `hit` table; referencing an unknown column is a statement
error.  In the (unreachable, see `pathsQueryColumns`) well-formed case the
`"day" = $2` comparison would select the rows whose `day` column equals the
parameter. -/
def paths (tenantId : TenantId) (_day : Nat) (hits : List Hit) :
    Except Unit (List String) :=
  if pathsQueryColumns.all (fun c => hitTableColumns.contains c) then
    Except.ok (distinct
      ((hits.filter (fun h => scopeMatch tenantId h.tenantId)).map (fun h => h.path)))
  else Except.error ()

/-- Modelled from the spec: `listPaths(scope, day)` returns the set of
distinct paths observed in the raw hits of that calendar day for the scope,
the day of a hit being determined by its event timestamp (§4.6). -/
def pathsSpec (tenantId : TenantId) (day : Nat) (hits : List Hit) : List String :=
  distinct
    ((hits.filter
        (fun h => scopeMatch tenantId h.tenantId && decide (dateOf h.time = day))).map
      (fun h => h.path))

/-- `DeleteHitsByDay`: `DELETE FROM "hit" WHERE scope AND time >= $2 AND
time < $2 + INTERVAL '1 day'` — keeps exactly the rows the predicate does
not match.  `day` is the timestamp passed as `$2` (midnight of the day). -/
def deleteHitsByDay (tenantId : TenantId) (day : Nat) (hits : List Hit) :
    List Hit :=
  hits.filter
    (fun h => !(scopeMatch tenantId h.tenantId && decide (day ≤ h.time)
                && decide (h.time < day + 86400)))

/-! ## The aggregate merge engine -/

/-- SQL `LOWER`: ASCII-fold every character of the string. -/
def sqlLower (s : String) : String := String.mk (s.data.map Char.toLower)

/-- Outcome of a `tx.Get` lookup: a row was scanned (`err == nil`), no row
matched (`err == sql.ErrNoRows`), or the statement itself failed
(connection/statement error, also `err != nil`). -/
inductive GetResult (α : Type) where
  | found (row : α)
  | noRows
  | failure
deriving DecidableEq, Repr

/-- `err == nil` for the result of a `tx.Get`. -/
def GetResult.isFound {α : Type} : GetResult α → Bool
  | .found _ => true
  | _ => false

/-- A healthy engine's `tx.Get`: the first matching row, or `ErrNoRows`. -/
def getFirst {α : Type} (r : Option α) : GetResult α :=
  match r with
  | some row => GetResult.found row
  | none => GetResult.noRows

/-- `VisitorStats`: the page/day aggregate row with its four counters. -/
structure VisitorStats where
  id : Nat
  tenantId : TenantId
  day : Nat
  path : String
  visitors : Int
  platformDesktop : Int
  platformMobile : Int
  platformUnknown : Int
deriving DecidableEq, Repr

/-- `new(VisitorStats)`: the all-zero entity sqlx scans into. -/
def emptyVisitorStats : VisitorStats :=
  { id := 0, tenantId := none, day := 0, path := "", visitors := 0,
    platformDesktop := 0, platformMobile := 0, platformUnknown := 0 }

/-- The lookup predicate of `SaveVisitorStats`:
`($1 IS NULL OR tenant_id = $1) AND "day" = $2 AND LOWER("path") = LOWER($3)`. -/
def visitorStatsKey (e : VisitorStats) (r : VisitorStats) : Bool :=
  scopeMatch e.tenantId r.tenantId && r.day == e.day
    && sqlLower r.path == sqlLower e.path

/-- Scanning `SELECT id, visitors` into `new(VisitorStats)`: only `id` and
`visitors` are filled, every other field keeps its zero value. -/
def scanIdVisitors (r : VisitorStats) : VisitorStats :=
  { emptyVisitorStats with id := r.id, visitors := r.visitors }

/-- The body of `SaveVisitorStats` after the lookup, parametrized by the
lookup outcome `get` and the success `execOk` of the executed write
statement.  `if err == nil` takes the update branch; the `else` branch (both
`ErrNoRows` and lookup failure) runs the insert, which assigns the next
surrogate id. -/
def saveVisitorStatsCore (get : GetResult VisitorStats) (execOk : Bool)
    (table : List VisitorStats) (nextId : Nat) (e : VisitorStats) :
    Except Unit (List VisitorStats × Nat) :=
  match get with
  | .found row =>
      let ex0 := scanIdVisitors row
      let ex : VisitorStats :=
        { ex0 with
          visitors := ex0.visitors + e.visitors
          platformDesktop := ex0.platformDesktop + e.platformDesktop
          platformMobile := ex0.platformMobile + e.platformMobile
          platformUnknown := ex0.platformUnknown + e.platformUnknown }
      if execOk then
        Except.ok
          (table.map (fun r =>
            if r.id == ex.id then
              { r with
                visitors := ex.visitors
                platformDesktop := ex.platformDesktop
                platformMobile := ex.platformMobile
                platformUnknown := ex.platformUnknown }
            else r), nextId)
      else Except.error ()
  | _ =>
      if execOk then Except.ok (table ++ [{ e with id := nextId }], nextId + 1)
      else Except.error ()

/-- `SaveVisitorStats` with a healthy engine: the lookup returns the first
matching row of the table, and the write statement succeeds. -/
def saveVisitorStats (table : List VisitorStats) (nextId : Nat)
    (e : VisitorStats) : Except Unit (List VisitorStats × Nat) :=
  saveVisitorStatsCore (getFirst (table.find? (visitorStatsKey e))) true
    table nextId e

/-- The `StatsEntity` interface together with the per-dimension update and
insert statements: read the id and visitors counter, set the visitors
counter (the `UPDATE ... SET visitors = $1 WHERE id = $2` statement), and
assign the serial id on insert. -/
structure StatsOps (α : Type) where
  getID : α → Nat
  getVisitors : α → Int
  withVisitors : α → Int → α
  withID : α → Nat → α

/-- `createUpdateEntity`: on `found` (`err == nil` of the lookup) add the
existing and incoming visitors and update the row by id; otherwise insert
the entity.  `execOk` models the executed statement's success. -/
def createUpdateEntity {α : Type} (ops : StatsOps α) (found : Bool)
    (entity existing : α) (execOk : Bool) (table : List α) (nextId : Nat) :
    Except Unit (List α × Nat) :=
  if found then
    let visitors := ops.getVisitors existing + ops.getVisitors entity
    if execOk then
      Except.ok
        (table.map (fun r =>
          if ops.getID r == ops.getID existing then ops.withVisitors r visitors
          else r), nextId)
    else Except.error ()
  else
    if execOk then Except.ok (table ++ [ops.withID entity nextId], nextId + 1)
    else Except.error ()

/-- `VisitorTimeStats`: the hour-of-day aggregate row. -/
structure VisitorTimeStats where
  id : Nat
  tenantId : TenantId
  day : Nat
  path : String
  hour : Nat
  visitors : Int
deriving DecidableEq, Repr

def emptyVisitorTimeStats : VisitorTimeStats :=
  { id := 0, tenantId := none, day := 0, path := "", hour := 0, visitors := 0 }

/-- Lookup of `SaveVisitorTimeStats`: scope, day, `LOWER(path)`, exact hour. -/
def visitorTimeStatsKey (e : VisitorTimeStats) (r : VisitorTimeStats) : Bool :=
  scopeMatch e.tenantId r.tenantId && r.day == e.day
    && sqlLower r.path == sqlLower e.path && r.hour == e.hour

def visitorTimeStatsOps : StatsOps VisitorTimeStats :=
  { getID := fun r => r.id
    getVisitors := fun r => r.visitors
    withVisitors := fun r v => { r with visitors := v }
    withID := fun r i => { r with id := i } }

/-- `SaveVisitorTimeStats` after its lookup: scan `SELECT id, visitors` into
the zero entity and delegate to `createUpdateEntity` with `found = (err == nil)`. -/
def saveVisitorTimeStatsCore (get : GetResult VisitorTimeStats) (execOk : Bool)
    (table : List VisitorTimeStats) (nextId : Nat) (e : VisitorTimeStats) :
    Except Unit (List VisitorTimeStats × Nat) :=
  let existing :=
    match get with
    | .found r => { emptyVisitorTimeStats with id := r.id, visitors := r.visitors }
    | _ => emptyVisitorTimeStats
  createUpdateEntity visitorTimeStatsOps get.isFound e existing execOk table nextId

def saveVisitorTimeStats (table : List VisitorTimeStats) (nextId : Nat)
    (e : VisitorTimeStats) : Except Unit (List VisitorTimeStats × Nat) :=
  saveVisitorTimeStatsCore (getFirst (table.find? (visitorTimeStatsKey e))) true
    table nextId e

/-- `LanguageStats`: the language aggregate row. -/
structure LanguageStats where
  id : Nat
  tenantId : TenantId
  day : Nat
  path : String
  language : String
  visitors : Int
deriving DecidableEq, Repr

def emptyLanguageStats : LanguageStats :=
  { id := 0, tenantId := none, day := 0, path := "", language := "", visitors := 0 }

/-- Lookup of `SaveLanguageStats`: scope, day, `LOWER(path)`, `LOWER(language)`. -/
def languageStatsKey (e : LanguageStats) (r : LanguageStats) : Bool :=
  scopeMatch e.tenantId r.tenantId && r.day == e.day
    && sqlLower r.path == sqlLower e.path && sqlLower r.language == sqlLower e.language

def languageStatsOps : StatsOps LanguageStats :=
  { getID := fun r => r.id
    getVisitors := fun r => r.visitors
    withVisitors := fun r v => { r with visitors := v }
    withID := fun r i => { r with id := i } }

def saveLanguageStatsCore (get : GetResult LanguageStats) (execOk : Bool)
    (table : List LanguageStats) (nextId : Nat) (e : LanguageStats) :
    Except Unit (List LanguageStats × Nat) :=
  let existing :=
    match get with
    | .found r => { emptyLanguageStats with id := r.id, visitors := r.visitors }
    | _ => emptyLanguageStats
  createUpdateEntity languageStatsOps get.isFound e existing execOk table nextId

def saveLanguageStats (table : List LanguageStats) (nextId : Nat)
    (e : LanguageStats) : Except Unit (List LanguageStats × Nat) :=
  saveLanguageStatsCore (getFirst (table.find? (languageStatsKey e))) true
    table nextId e

/-- `ReferrerStats`: the referrer aggregate row. -/
structure ReferrerStats where
  id : Nat
  tenantId : TenantId
  day : Nat
  path : String
  referrer : String
  visitors : Int
deriving DecidableEq, Repr

def emptyReferrerStats : ReferrerStats :=
  { id := 0, tenantId := none, day := 0, path := "", referrer := "", visitors := 0 }

/-- Lookup of `SaveReferrerStats`: scope, day, `LOWER(path)`, `LOWER(referrer)`. -/
def referrerStatsKey (e : ReferrerStats) (r : ReferrerStats) : Bool :=
  scopeMatch e.tenantId r.tenantId && r.day == e.day
    && sqlLower r.path == sqlLower e.path && sqlLower r.referrer == sqlLower e.referrer

def referrerStatsOps : StatsOps ReferrerStats :=
  { getID := fun r => r.id
    getVisitors := fun r => r.visitors
    withVisitors := fun r v => { r with visitors := v }
    withID := fun r i => { r with id := i } }

def saveReferrerStatsCore (get : GetResult ReferrerStats) (execOk : Bool)
    (table : List ReferrerStats) (nextId : Nat) (e : ReferrerStats) :
    Except Unit (List ReferrerStats × Nat) :=
  let existing :=
    match get with
    | .found r => { emptyReferrerStats with id := r.id, visitors := r.visitors }
    | _ => emptyReferrerStats
  createUpdateEntity referrerStatsOps get.isFound e existing execOk table nextId

def saveReferrerStats (table : List ReferrerStats) (nextId : Nat)
    (e : ReferrerStats) : Except Unit (List ReferrerStats × Nat) :=
  saveReferrerStatsCore (getFirst (table.find? (referrerStatsKey e))) true
    table nextId e

/-- `OSStats`: the operating-system aggregate row. -/
structure OSStats where
  id : Nat
  tenantId : TenantId
  day : Nat
  path : String
  os : String
  osVersion : String
  visitors : Int
deriving DecidableEq, Repr

def emptyOSStats : OSStats :=
  { id := 0, tenantId := none, day := 0, path := "", os := "", osVersion := "",
    visitors := 0 }

/-- Lookup of `SaveOSStats`: scope, day, `LOWER(path)`, exact os and version. -/
def osStatsKey (e : OSStats) (r : OSStats) : Bool :=
  scopeMatch e.tenantId r.tenantId && r.day == e.day
    && sqlLower r.path == sqlLower e.path && r.os == e.os
    && r.osVersion == e.osVersion

def osStatsOps : StatsOps OSStats :=
  { getID := fun r => r.id
    getVisitors := fun r => r.visitors
    withVisitors := fun r v => { r with visitors := v }
    withID := fun r i => { r with id := i } }

def saveOSStatsCore (get : GetResult OSStats) (execOk : Bool)
    (table : List OSStats) (nextId : Nat) (e : OSStats) :
    Except Unit (List OSStats × Nat) :=
  let existing :=
    match get with
    | .found r => { emptyOSStats with id := r.id, visitors := r.visitors }
    | _ => emptyOSStats
  createUpdateEntity osStatsOps get.isFound e existing execOk table nextId

def saveOSStats (table : List OSStats) (nextId : Nat) (e : OSStats) :
    Except Unit (List OSStats × Nat) :=
  saveOSStatsCore (getFirst (table.find? (osStatsKey e))) true table nextId e

/-- `BrowserStats`: the browser aggregate row. -/
structure BrowserStats where
  id : Nat
  tenantId : TenantId
  day : Nat
  path : String
  browser : String
  browserVersion : String
  visitors : Int
deriving DecidableEq, Repr

def emptyBrowserStats : BrowserStats :=
  { id := 0, tenantId := none, day := 0, path := "", browser := "",
    browserVersion := "", visitors := 0 }

/-- Lookup of `SaveBrowserStats`: scope, day, `LOWER(path)`, exact browser
and version. -/
def browserStatsKey (e : BrowserStats) (r : BrowserStats) : Bool :=
  scopeMatch e.tenantId r.tenantId && r.day == e.day
    && sqlLower r.path == sqlLower e.path && r.browser == e.browser
    && r.browserVersion == e.browserVersion

def browserStatsOps : StatsOps BrowserStats :=
  { getID := fun r => r.id
    getVisitors := fun r => r.visitors
    withVisitors := fun r v => { r with visitors := v }
    withID := fun r i => { r with id := i } }

def saveBrowserStatsCore (get : GetResult BrowserStats) (execOk : Bool)
    (table : List BrowserStats) (nextId : Nat) (e : BrowserStats) :
    Except Unit (List BrowserStats × Nat) :=
  let existing :=
    match get with
    | .found r => { emptyBrowserStats with id := r.id, visitors := r.visitors }
    | _ => emptyBrowserStats
  createUpdateEntity browserStatsOps get.isFound e existing execOk table nextId

def saveBrowserStats (table : List BrowserStats) (nextId : Nat)
    (e : BrowserStats) : Except Unit (List BrowserStats × Nat) :=
  saveBrowserStatsCore (getFirst (table.find? (browserStatsKey e))) true
    table nextId e

/-! ## Transaction visibility of `SaveHits` -/

/-- The store with the committed `hit` table and (at most) one open caller
transaction, modelled as that transaction's working copy of the table. -/
structure HitStore where
  committed : List Hit
  txn : Option (List Hit)
deriving DecidableEq, Repr

/-- `store.NewTx()` from the caller's side: open a transaction seeing the
committed state. -/
def beginTx (s : HitStore) : HitStore :=
  { s with txn := some s.committed }

/-- Caller-side `Rollback`: discard the transaction's work. -/
def rollbackTx (s : HitStore) : HitStore :=
  { s with txn := none }

/-- Caller-side `Commit`: publish the transaction's work. -/
def commitTx (s : HitStore) : HitStore :=
  { committed := (s.txn).getD s.committed, txn := none }

/-- `SaveHits` as the source defines it on the store: it has no transaction
parameter and executes its single statement through `store.DB.Exec`, i.e.
directly against the committed table, whatever transaction the caller may
have open. -/
def saveHitsStore (engineOk : Bool) (s : HitStore) (hits : List Hit) :
    Except Unit HitStore :=
  (saveHits engineOk s.committed hits).map (fun t => { s with committed := t })

/-- Modelled from the spec (§4.2, §4.3), for comparison with `saveHitsStore`:
a `saveHits` that takes the optional caller transaction like every other
mutating operation — inside the caller's transaction when one is open,
directly (auto-commit) otherwise. -/
def saveHitsClaimed (engineOk : Bool) (s : HitStore) (hits : List Hit) :
    Except Unit HitStore :=
  match s.txn with
  | some t => (saveHits engineOk t hits).map (fun t2 => { s with txn := some t2 })
  | none =>
      (saveHits engineOk s.committed hits).map (fun t2 => { s with committed := t2 })

/-! ## Concrete scenario data -/

/-- The first delta of the spec's concrete page/day scenario:
`visitors 3, desktop 2, mobile 1, unknown 0` for day 2024-01-01 (epoch day
19723), path `/a`, global scope. -/
def c1Delta1 : VisitorStats :=
  { id := 0, tenantId := none, day := 19723, path := "/a", visitors := 3,
    platformDesktop := 2, platformMobile := 1, platformUnknown := 0 }

/-- The second delta of the scenario: `visitors 2, desktop 0, mobile 2,
unknown 0`. -/
def c1Delta2 : VisitorStats :=
  { id := 0, tenantId := none, day := 19723, path := "/a", visitors := 2,
    platformDesktop := 0, platformMobile := 2, platformUnknown := 0 }

/-- The row created by the first merge of the scenario. -/
def c1Row1 : VisitorStats := { c1Delta1 with id := 1 }

/-- The row actually produced by the second merge of the scenario (the spec
expects `platformDesktop = 2` and `platformMobile = 3` here). -/
def c1Row2 : VisitorStats :=
  { id := 1, tenantId := none, day := 19723, path := "/a", visitors := 5,
    platformDesktop := 0, platformMobile := 2, platformUnknown := 0 }

/-- A sample hit used by several concrete witnesses. -/
def sampleHit : Hit :=
  { tenantId := some 1, fingerprint := "fp1", path := "/a", url := "u",
    language := "en", userAgent := "ua", ref := "r", os := "linux",
    osVersion := "1", browser := "firefox", browserVersion := "100",
    desktop := true, mobile := false, time := 100 }

/-- A hit on epoch day 5, global tenant. -/
def hitDay5 : Hit := { sampleHit with tenantId := none, time := 5 * 86400 + 10 }

/-- A hit on epoch day 3, global tenant. -/
def hitDay3 : Hit := { sampleHit with tenantId := none, time := 3 * 86400 + 20 }

/-- A tenant-2 hit inside the purge window of epoch day 1 (`[86400, 172800)`). -/
def hitTenant2InWindow : Hit := { sampleHit with tenantId := some 2, time := 90000 }

/-- A tenant-1 hit inside the purge window of epoch day 1. -/
def hitTenant1InWindow : Hit := { sampleHit with time := 91000 }

/-- A tenant-1 hit on another day. -/
def hitTenant1OtherDay : Hit := { sampleHit with time := 200000 }

/-- A language-dimension delta used in concrete witnesses. -/
def langDelta : LanguageStats :=
  { id := 0, tenantId := some 1, day := 19723, path := "/Home",
    language := "EN", visitors := 4 }

/-- The case-variant language delta: same key up to letter case. -/
def langDelta2 : LanguageStats :=
  { id := 0, tenantId := some 1, day := 19723, path := "/home",
    language := "en", visitors := 1 }

/-! ## Helper lemmas -/

theorem hitArgs_length (h : Hit) : (hitArgs h).length = 14 := rfl

theorem buildHitArgs_length (hits : List Hit) :
    (buildHitArgs hits).length = 14 * hits.length := by
  induction hits with
  | nil => rfl
  | cons h t ih =>
      simp [buildHitArgs, hitArgs] at ih ⊢
      omega

theorem chunk14_append (h : Hit) (rest : List Value) :
    chunk14 (hitArgs h ++ rest) = hitArgs h :: chunk14 rest := by
  simp [hitArgs, chunk14, List.take, List.drop]

theorem chunk14_buildHitArgs (hits : List Hit) :
    chunk14 (buildHitArgs hits) = hits.map hitArgs := by
  induction hits with
  | nil => simp [buildHitArgs, chunk14]
  | cons h t ih =>
      have : buildHitArgs (h :: t) = hitArgs h ++ buildHitArgs t := by
        simp [buildHitArgs]
      rw [this, chunk14_append, ih, List.map_cons]

theorem decodeHit_hitArgs (h : Hit) : decodeHit (hitArgs h) = some h := rfl

theorem mapM_decode_hitArgs (hits : List Hit) :
    (hits.map hitArgs).mapM decodeHit = some hits := by
  induction hits with
  | nil => rfl
  | cons h t ih =>
      rw [List.map_cons, List.mapM_cons, decodeHit_hitArgs, ih]
      rfl

theorem mem_distinctAux {α : Type} [DecidableEq α] (seen : List α) (l : List α)
    (x : α) : x ∈ distinctAux seen l ↔ x ∈ l ∧ x ∉ seen := by
  induction l generalizing seen with
  | nil => simp [distinctAux]
  | cons a rest ih =>
      by_cases ha : a ∈ seen
      · simp only [distinctAux, if_pos ha, ih, List.mem_cons]
        constructor
        · exact fun h => ⟨Or.inr h.1, h.2⟩
        · rintro ⟨h | h, hx⟩
          · exact absurd (h ▸ ha) hx
          · exact ⟨h, hx⟩
      · simp only [distinctAux, if_neg ha, List.mem_cons, ih]
        constructor
        · rintro (rfl | ⟨h1, h2⟩)
          · exact ⟨Or.inl rfl, ha⟩
          · refine ⟨Or.inr h1, fun hx => h2 (Or.inr hx)⟩
        · rintro ⟨rfl | h, hx⟩
          · exact Or.inl rfl
          · by_cases hxa : x = a
            · exact Or.inl hxa
            · exact Or.inr ⟨h, fun hmem => hmem.elim hxa hx⟩

theorem nodup_distinctAux {α : Type} [DecidableEq α] (seen : List α)
    (l : List α) : (distinctAux seen l).Nodup := by
  induction l generalizing seen with
  | nil => simp [distinctAux]
  | cons a rest ih =>
      by_cases ha : a ∈ seen
      · simpa [distinctAux, if_pos ha] using ih seen
      · have hstep : distinctAux seen (a :: rest) =
            a :: distinctAux (a :: seen) rest := by
          simp [distinctAux, ha]
        rw [hstep, List.nodup_cons]
        refine ⟨fun hmem => ?_, ih (a :: seen)⟩
        exact ((mem_distinctAux _ _ _).mp hmem).2 (List.mem_cons_self a seen)

theorem mem_distinct {α : Type} [DecidableEq α] (l : List α) (x : α) :
    x ∈ distinct l ↔ x ∈ l := by
  simp [distinct, mem_distinctAux]

theorem nodup_distinct {α : Type} [DecidableEq α] (l : List α) :
    (distinct l).Nodup := nodup_distinctAux [] l

theorem scopeMatch_refl (t : TenantId) : scopeMatch t t = true := by
  cases t <;> simp [scopeMatch]

theorem saveHits_engine_failure (table hits : List Hit) :
    saveHits false table hits = Except.error () := rfl

theorem saveHits_nonempty_ok (table hits : List Hit) (hne : hits ≠ []) :
    saveHits true table hits = Except.ok (table ++ hits) := by
  have hlen : (buildHitArgs hits).length = 14 * hits.length :=
    buildHitArgs_length hits
  have hn : (buildHitArgs hits).length / 14 = hits.length := by omega
  have hpos : 1 ≤ hits.length := by
    cases hits with
    | nil => exact absurd rfl hne
    | cons h t => simp
  have hq : hitQueryFinal hits = validHitInsert ((buildHitArgs hits).length / 14) := by
    rw [hn]; rfl
  unfold saveHits execHitInsert
  rw [if_neg (by simp)]
  rw [if_pos ⟨by omega, by omega, hq⟩]
  rw [chunk14_buildHitArgs, mapM_decode_hitArgs]

theorem saveHits_empty_fails (engineOk : Bool) (table : List Hit) :
    saveHits engineOk table [] = Except.error () := by
  cases engineOk with
  | false => rfl
  | true =>
      unfold saveHits execHitInsert
      rw [if_neg (by simp)]
      rw [if_neg]
      intro hcond
      have : (buildHitArgs ([] : List Hit)).length = 0 := rfl
      omega

/-! ## The claims -/

/-- C1: the claim states that a page/day merge on an existing row sums every
counter field independently, and that the concrete two-merge scenario ends in
`visitors 5, desktop 2, mobile 3, unknown 0`.  The code's lookup reads only
`id, visitors` back (`SELECT id, visitors FROM "visitor_stats" ...`), so the
existing platform counters stay at their `new(VisitorStats)` zero values and
the update overwrites them with just the incoming delta: evaluating the
embedded code on the claim's own scenario yields
`visitors 5, desktop 0, mobile 2, unknown 0`. -/
theorem c1_page_merge_scenario :
    saveVisitorStats [] 1 c1Delta1 = Except.ok ([c1Row1], 2) ∧
    saveVisitorStats [c1Row1] 2 c1Delta2 = Except.ok ([c1Row2], 2) ∧
    c1Row1.visitors = 3 ∧ c1Row1.platformDesktop = 2 ∧
    c1Row1.platformMobile = 1 ∧ c1Row1.platformUnknown = 0 ∧
    c1Row2.visitors = 5 ∧ c1Row2.platformDesktop = 0 ∧
    c1Row2.platformMobile = 2 ∧ c1Row2.platformUnknown = 0 :=
  ⟨rfl, rfl, rfl, rfl, rfl, rfl, rfl, rfl, rfl, rfl⟩

/-- C2 (counterexample): a statement failure of the merge lookup is *not*
propagated to the caller, and it *does* send the code down the insert branch:
with the lookup failing and the insert statement succeeding, the merge
returns success and has inserted the entity. -/
theorem c2_counterexample :
    GetResult.isFound (GetResult.failure : GetResult VisitorStats) = false ∧
    saveVisitorStatsCore GetResult.failure true [] 1 c1Delta1 =
      Except.ok ([c1Row1], 2) :=
  ⟨rfl, rfl⟩

/-- C2 (amended): in every one of the six merge operations the branch test is
`err == nil`, so the insert branch is taken on *any* unsuccessful lookup —
not-found and statement failure alike — and a lookup failure is never
propagated by itself; a failure result arises only when the executed
insert/update statement itself fails (`execOk = false`). -/
theorem c2_amended_insert_on_any_lookup_error :
    (∀ (get : GetResult VisitorStats) (execOk : Bool)
        (table : List VisitorStats) (nextId : Nat) (e : VisitorStats),
        get.isFound = false →
        saveVisitorStatsCore get execOk table nextId e =
          if execOk then Except.ok (table ++ [{ e with id := nextId }], nextId + 1)
          else Except.error ()) ∧
    (∀ (get : GetResult VisitorTimeStats) (execOk : Bool)
        (table : List VisitorTimeStats) (nextId : Nat) (e : VisitorTimeStats),
        get.isFound = false →
        saveVisitorTimeStatsCore get execOk table nextId e =
          if execOk then Except.ok (table ++ [{ e with id := nextId }], nextId + 1)
          else Except.error ()) ∧
    (∀ (get : GetResult LanguageStats) (execOk : Bool)
        (table : List LanguageStats) (nextId : Nat) (e : LanguageStats),
        get.isFound = false →
        saveLanguageStatsCore get execOk table nextId e =
          if execOk then Except.ok (table ++ [{ e with id := nextId }], nextId + 1)
          else Except.error ()) ∧
    (∀ (get : GetResult ReferrerStats) (execOk : Bool)
        (table : List ReferrerStats) (nextId : Nat) (e : ReferrerStats),
        get.isFound = false →
        saveReferrerStatsCore get execOk table nextId e =
          if execOk then Except.ok (table ++ [{ e with id := nextId }], nextId + 1)
          else Except.error ()) ∧
    (∀ (get : GetResult OSStats) (execOk : Bool)
        (table : List OSStats) (nextId : Nat) (e : OSStats),
        get.isFound = false →
        saveOSStatsCore get execOk table nextId e =
          if execOk then Except.ok (table ++ [{ e with id := nextId }], nextId + 1)
          else Except.error ()) ∧
    (∀ (get : GetResult BrowserStats) (execOk : Bool)
        (table : List BrowserStats) (nextId : Nat) (e : BrowserStats),
        get.isFound = false →
        saveBrowserStatsCore get execOk table nextId e =
          if execOk then Except.ok (table ++ [{ e with id := nextId }], nextId + 1)
          else Except.error ()) := by
  refine ⟨?_, ?_, ?_, ?_, ?_, ?_⟩ <;>
    · intro get execOk table nextId e h
      cases get with
      | found r => simp [GetResult.isFound] at h
      | noRows => rfl
      | failure => rfl

/-- C2 (witness): the amended statement at a concrete input — a not-found
lookup for the language dimension with a failing insert statement yields the
propagated insert failure. -/
theorem c2_amended_witness :
    GetResult.isFound (GetResult.noRows : GetResult LanguageStats) = false ∧
    saveLanguageStatsCore GetResult.noRows false [] 1 langDelta =
      Except.error () := by
  refine ⟨rfl, ?_⟩
  rw [c2_amended_insert_on_any_lookup_error.2.2.1 GetResult.noRows false [] 1
    langDelta rfl]
  rfl

/-- C3: the claim states every counter of an aggregate row is monotonically
non-decreasing under successful merges with non-negative deltas.  On the
page/day dimension the second merge of the concrete scenario overwrites
`platform_desktop` from 2 down to 0 (the lookup never reads the platform
counters back), a strict decrease despite the delta being `0 ≥ 0`. -/
theorem c3_platform_counter_decreases :
    0 ≤ c1Delta2.platformDesktop ∧ 0 ≤ c1Delta2.platformMobile ∧
    saveVisitorStats [c1Row1] 2 c1Delta2 = Except.ok ([c1Row2], 2) ∧
    c1Row2.platformDesktop < c1Row1.platformDesktop :=
  ⟨by decide, by decide, rfl, by decide⟩

/-- C4 (counterexample): `SaveHits` has no transaction parameter and executes
through `store.DB.Exec`, not through any caller transaction.  Concretely:
with a caller transaction open, the source's `SaveHits` writes a hit that is
still committed after the caller rolls the transaction back, whereas the
claimed transaction-joining behaviour (`saveHitsClaimed`, modelled from the
spec's words) would leave the committed table empty. -/
theorem c4_counterexample :
    (saveHitsStore true (beginTx { committed := [], txn := none }) [sampleHit]).map
        (fun s => (rollbackTx s).committed) = Except.ok [sampleHit] ∧
    (saveHitsClaimed true (beginTx { committed := [], txn := none }) [sampleHit]).map
        (fun s => (rollbackTx s).committed) = Except.ok [] := by
  have h := saveHits_nonempty_ok [] [sampleHit] (by simp)
  constructor <;>
    simp [saveHitsStore, saveHitsClaimed, beginTx, rollbackTx, h, Except.map]

/-- C4 (amended): `SaveHits` takes no optional transaction handle; it issues
its single multi-row INSERT directly on the database connection (statement
level auto-commit), so its effect lands in the committed state immediately,
survives the rollback of any caller transaction that is open, and never
touches that transaction's working state. -/
theorem c4_amended_direct_write :
    ∀ (s : HitStore) (hits : List Hit), hits ≠ [] →
      (saveHitsStore true (beginTx s) hits).map
          (fun s2 => ((rollbackTx s2).committed, (rollbackTx s2).txn)) =
        Except.ok (s.committed ++ hits, none) ∧
      (saveHitsStore true (beginTx s) hits).map (fun s2 => s2.txn) =
        Except.ok (some s.committed) := by
  intro s hits hne
  have h := saveHits_nonempty_ok s.committed hits hne
  constructor <;>
    simp [saveHitsStore, beginTx, rollbackTx, h, Except.map]

/-- C4 (witness): the amended statement at a concrete store and batch. -/
theorem c4_amended_witness :
    ([sampleHit] ≠ ([] : List Hit)) ∧
    ((saveHitsStore true (beginTx { committed := [], txn := none }) [sampleHit]).map
        (fun s2 => ((rollbackTx s2).committed, (rollbackTx s2).txn)) =
      Except.ok ([] ++ [sampleHit], none)) :=
  ⟨by simp, (c4_amended_direct_write { committed := [], txn := none } [sampleHit]
    (by simp)).1⟩

/-- C5: the claim states `Paths` returns the distinct paths observed on the
given calendar day (by event timestamp).  The query
`SELECT DISTINCT "path" FROM "hit" WHERE ... AND "day" = $2` references a
column `day` that does not exist in the `hit` table (spec §6 schema; the
`INSERT` of `SaveHits` writes exactly the fourteen listed columns), so the
statement always fails — while the spec-modelled `pathsSpec` returns the
paths of the day. -/
theorem c5_paths_column_error :
    (∀ (tenantId : TenantId) (day : Nat) (hits : List Hit),
        paths tenantId day hits = Except.error ()) ∧
    ("day" ∈ pathsQueryColumns ∧ "day" ∉ hitTableColumns) ∧
    pathsSpec none 0 [sampleHit] = ["/a"] := by
  refine ⟨fun tenantId day hits => ?_, by decide, rfl⟩
  unfold paths
  rw [if_neg (by decide)]

/-- C6 (counterexample): the `Days` query has no `ORDER BY`, so the distinct
days come back in scan order, not ascending: with the day-5 hit stored before
the day-3 hit the result is `[5, 3]`. -/
theorem c6_counterexample :
    days 10 none [hitDay5, hitDay3] = [5, 3] ∧
    ¬ List.Sorted (fun a b => a ≤ b) (days 10 none [hitDay5, hitDay3]) := by
  have h : days 10 none [hitDay5, hitDay3] = [5, 3] := rfl
  refine ⟨h, ?_⟩
  rw [h]
  decide

/-- C6 (amended): `Days` returns the distinct calendar days present in the
raw hits of the scope, a day being present exactly when some scope-matching
hit's timestamp falls on it and it lies strictly before the current date; the
current (incomplete) day is never included.  No order is guaranteed (the
query has no `ORDER BY`). -/
theorem c6_amended_distinct_days :
    ∀ (today : Nat) (tenantId : TenantId) (hits : List Hit),
      (days today tenantId hits).Nodup ∧
      (∀ d, d ∈ days today tenantId hits ↔
        d < today ∧ ∃ h ∈ hits, scopeMatch tenantId h.tenantId = true ∧
          dateOf h.time = d) ∧
      today ∉ days today tenantId hits := by
  intro today tenantId hits
  have hiff : ∀ d, d ∈ days today tenantId hits ↔
      d < today ∧ ∃ h ∈ hits, scopeMatch tenantId h.tenantId = true ∧
        dateOf h.time = d := by
    intro d
    simp only [days, mem_distinct, List.mem_map, List.mem_filter,
      Bool.and_eq_true, decide_eq_true_eq]
    constructor
    · rintro ⟨h, ⟨hmem, hsc, hlt⟩, rfl⟩
      exact ⟨hlt, h, hmem, hsc, rfl⟩
    · rintro ⟨hlt, h, hmem, hsc, hd⟩
      exact ⟨h, ⟨hmem, hsc, hd ▸ hlt⟩, hd⟩
  refine ⟨nodup_distinct _, hiff, fun hmem => ?_⟩
  exact absurd ((hiff today).mp hmem).1 (lt_irrefl today)

/-- C7: for every one of the six dimensions the lookup folds the text keys
with `LOWER` (`path` everywhere; additionally `language` and `referrer` in
those dimensions), so two merges whose key tuples differ only in letter case
hit the same single row: a first merge from the empty table inserts one row,
and the case-variant second merge takes the update branch, leaving exactly
one row. -/
theorem c7_case_insensitive_folding :
    (∀ e1 e2 : VisitorStats,
        e1.tenantId = e2.tenantId → e1.day = e2.day →
        sqlLower e1.path = sqlLower e2.path →
        saveVisitorStats [] 1 e1 = Except.ok ([{ e1 with id := 1 }], 2) ∧
        (saveVisitorStats [{ e1 with id := 1 }] 2 e2).map (fun p => p.1.length) =
          Except.ok 1) ∧
    (∀ e1 e2 : VisitorTimeStats,
        e1.tenantId = e2.tenantId → e1.day = e2.day →
        sqlLower e1.path = sqlLower e2.path → e1.hour = e2.hour →
        saveVisitorTimeStats [] 1 e1 = Except.ok ([{ e1 with id := 1 }], 2) ∧
        (saveVisitorTimeStats [{ e1 with id := 1 }] 2 e2).map (fun p => p.1.length) =
          Except.ok 1) ∧
    (∀ e1 e2 : LanguageStats,
        e1.tenantId = e2.tenantId → e1.day = e2.day →
        sqlLower e1.path = sqlLower e2.path →
        sqlLower e1.language = sqlLower e2.language →
        saveLanguageStats [] 1 e1 = Except.ok ([{ e1 with id := 1 }], 2) ∧
        (saveLanguageStats [{ e1 with id := 1 }] 2 e2).map (fun p => p.1.length) =
          Except.ok 1) ∧
    (∀ e1 e2 : ReferrerStats,
        e1.tenantId = e2.tenantId → e1.day = e2.day →
        sqlLower e1.path = sqlLower e2.path →
        sqlLower e1.referrer = sqlLower e2.referrer →
        saveReferrerStats [] 1 e1 = Except.ok ([{ e1 with id := 1 }], 2) ∧
        (saveReferrerStats [{ e1 with id := 1 }] 2 e2).map (fun p => p.1.length) =
          Except.ok 1) ∧
    (∀ e1 e2 : OSStats,
        e1.tenantId = e2.tenantId → e1.day = e2.day →
        sqlLower e1.path = sqlLower e2.path → e1.os = e2.os →
        e1.osVersion = e2.osVersion →
        saveOSStats [] 1 e1 = Except.ok ([{ e1 with id := 1 }], 2) ∧
        (saveOSStats [{ e1 with id := 1 }] 2 e2).map (fun p => p.1.length) =
          Except.ok 1) ∧
    (∀ e1 e2 : BrowserStats,
        e1.tenantId = e2.tenantId → e1.day = e2.day →
        sqlLower e1.path = sqlLower e2.path → e1.browser = e2.browser →
        e1.browserVersion = e2.browserVersion →
        saveBrowserStats [] 1 e1 = Except.ok ([{ e1 with id := 1 }], 2) ∧
        (saveBrowserStats [{ e1 with id := 1 }] 2 e2).map (fun p => p.1.length) =
          Except.ok 1) := by
  refine ⟨?_, ?_, ?_, ?_, ?_, ?_⟩
  · intro e1 e2 ht hd hp
    have hkey : visitorStatsKey e2 { e1 with id := 1 } = true := by
      simp [visitorStatsKey, ht, hd, hp, scopeMatch_refl]
    have hfind : List.find? (visitorStatsKey e2) [{ e1 with id := 1 }] =
        some { e1 with id := 1 } := by
      simp [List.find?, hkey]
    refine ⟨rfl, ?_⟩
    unfold saveVisitorStats
    rw [hfind]
    simp [getFirst, saveVisitorStatsCore, Except.map]
  · intro e1 e2 ht hd hp hh
    have hkey : visitorTimeStatsKey e2 { e1 with id := 1 } = true := by
      simp [visitorTimeStatsKey, ht, hd, hp, hh, scopeMatch_refl]
    have hfind : List.find? (visitorTimeStatsKey e2) [{ e1 with id := 1 }] =
        some { e1 with id := 1 } := by
      simp [List.find?, hkey]
    refine ⟨rfl, ?_⟩
    unfold saveVisitorTimeStats
    rw [hfind]
    simp [getFirst, saveVisitorTimeStatsCore, createUpdateEntity,
      GetResult.isFound, visitorTimeStatsOps, Except.map]
  · intro e1 e2 ht hd hp hl
    have hkey : languageStatsKey e2 { e1 with id := 1 } = true := by
      simp [languageStatsKey, ht, hd, hp, hl, scopeMatch_refl]
    have hfind : List.find? (languageStatsKey e2) [{ e1 with id := 1 }] =
        some { e1 with id := 1 } := by
      simp [List.find?, hkey]
    refine ⟨rfl, ?_⟩
    unfold saveLanguageStats
    rw [hfind]
    simp [getFirst, saveLanguageStatsCore, createUpdateEntity,
      GetResult.isFound, languageStatsOps, Except.map]
  · intro e1 e2 ht hd hp hr
    have hkey : referrerStatsKey e2 { e1 with id := 1 } = true := by
      simp [referrerStatsKey, ht, hd, hp, hr, scopeMatch_refl]
    have hfind : List.find? (referrerStatsKey e2) [{ e1 with id := 1 }] =
        some { e1 with id := 1 } := by
      simp [List.find?, hkey]
    refine ⟨rfl, ?_⟩
    unfold saveReferrerStats
    rw [hfind]
    simp [getFirst, saveReferrerStatsCore, createUpdateEntity,
      GetResult.isFound, referrerStatsOps, Except.map]
  · intro e1 e2 ht hd hp ho hv
    have hkey : osStatsKey e2 { e1 with id := 1 } = true := by
      simp [osStatsKey, ht, hd, hp, ho, hv, scopeMatch_refl]
    have hfind : List.find? (osStatsKey e2) [{ e1 with id := 1 }] =
        some { e1 with id := 1 } := by
      simp [List.find?, hkey]
    refine ⟨rfl, ?_⟩
    unfold saveOSStats
    rw [hfind]
    simp [getFirst, saveOSStatsCore, createUpdateEntity,
      GetResult.isFound, osStatsOps, Except.map]
  · intro e1 e2 ht hd hp hb hv
    have hkey : browserStatsKey e2 { e1 with id := 1 } = true := by
      simp [browserStatsKey, ht, hd, hp, hb, hv, scopeMatch_refl]
    have hfind : List.find? (browserStatsKey e2) [{ e1 with id := 1 }] =
        some { e1 with id := 1 } := by
      simp [List.find?, hkey]
    refine ⟨rfl, ?_⟩
    unfold saveBrowserStats
    rw [hfind]
    simp [getFirst, saveBrowserStatsCore, createUpdateEntity,
      GetResult.isFound, browserStatsOps, Except.map]

/-- C7 (witness): the language dimension at the spec's own example — path
`/Home` then `/home` (and language `EN` then `en`) for the same tenant and
day ends with exactly one row. -/
theorem c7_witness :
    langDelta.tenantId = langDelta2.tenantId ∧
    langDelta.day = langDelta2.day ∧
    sqlLower langDelta.path = sqlLower langDelta2.path ∧
    sqlLower langDelta.language = sqlLower langDelta2.language ∧
    saveLanguageStats [] 1 langDelta = Except.ok ([{ langDelta with id := 1 }], 2) ∧
    (saveLanguageStats [{ langDelta with id := 1 }] 2 langDelta2).map
        (fun p => p.1.length) = Except.ok 1 := by
  have h := c7_case_insensitive_folding.2.2.1 langDelta langDelta2 rfl rfl rfl rfl
  exact ⟨rfl, rfl, rfl, rfl, h.1, h.2⟩

/-- C8: `DeleteHitsByDay` keeps the surviving rows in place (a sublist of the
table) and a stored hit is deleted exactly when it matches the tenant scope
and its timestamp lies in `[day, day + 86400)`; in particular a concrete
tenant scope spares other tenants' hits and other days' hits, and the global
(`none`) scope matches hits of every tenant. -/
theorem c8_delete_exact_window :
    ∀ (tenantId : TenantId) (day : Nat) (hits : List Hit),
      List.Sublist (deleteHitsByDay tenantId day hits) hits ∧
      ∀ h, h ∈ hits →
        (h ∈ deleteHitsByDay tenantId day hits ↔
          ¬(scopeMatch tenantId h.tenantId = true ∧ day ≤ h.time ∧
            h.time < day + 86400)) := by
  intro tenantId day hits
  refine ⟨List.filter_sublist _, fun h hmem => ?_⟩
  simp only [deleteHitsByDay, List.mem_filter, hmem, true_and,
    Bool.not_eq_eq_eq_not, Bool.not_true, Bool.and_eq_false_imp,
    Bool.and_eq_true, decide_eq_true_eq]
  constructor
  · rintro hfalse ⟨hsc, hle, hlt⟩
    have hcontra := hfalse ⟨hsc, hle⟩
    simp [hlt] at hcontra
  · rintro hnot ⟨hsc, hle⟩
    by_cases hlt : h.time < day + 86400
    · exact absurd ⟨hsc, hle, hlt⟩ hnot
    · exact decide_eq_false hlt

/-- C8 (witness): with scope tenant 1 and day 1 (`[86400, 172800)`), the
tenant-2 hit in the window survives, the tenant-1 hit in the window is
deleted, and the tenant-1 hit of another day survives. -/
theorem c8_witness :
    (hitTenant2InWindow ∈ [hitTenant1InWindow, hitTenant2InWindow, hitTenant1OtherDay]) ∧
    (hitTenant2InWindow ∈ deleteHitsByDay (some 1) 86400
        [hitTenant1InWindow, hitTenant2InWindow, hitTenant1OtherDay] ↔
      ¬(scopeMatch (some 1) hitTenant2InWindow.tenantId = true ∧
        86400 ≤ hitTenant2InWindow.time ∧ hitTenant2InWindow.time < 86400 + 86400)) := by
  refine ⟨by decide, ?_⟩
  exact (c8_delete_exact_window (some 1) 86400
    [hitTenant1InWindow, hitTenant2InWindow, hitTenant1OtherDay]).2
    hitTenant2InWindow (by decide)

/-- C9: a successful `SaveHits` on a non-empty batch is a single multi-row
statement whose effect is to append exactly the batch, each row carrying the
fourteen fields of its hit (`hitArgs`), every pre-existing row untouched; a
statement execution failure leaves the table entirely unchanged (the write is
one statement, so all-or-nothing). -/
theorem c9_batch_append_atomic :
    ∀ (table hits : List Hit), hits ≠ [] →
      saveHits true table hits = Except.ok (table ++ hits) ∧
      saveHits false table hits = Except.error () := by
  intro table hits hne
  exact ⟨saveHits_nonempty_ok table hits hne, saveHits_engine_failure table hits⟩

/-- C9 (witness): the batch theorem at a concrete one-element batch over a
non-empty table. -/
theorem c9_witness :
    ([sampleHit] ≠ ([] : List Hit)) ∧
    saveHits true [hitDay3] [sampleHit] = Except.ok ([hitDay3] ++ [sampleHit]) ∧
    saveHits false [hitDay3] [sampleHit] = Except.error () := by
  have h := c9_batch_append_atomic [hitDay3] [sampleHit] (by simp)
  exact ⟨by simp, h.1, h.2⟩

/-- C10: for the empty batch the builder emits only the header, the final
character sliced off is the header's trailing space, and the resulting
statement (`... VALUES` with no value tuple) is malformed, so `SaveHits []`
always returns a failure result and writes nothing, whatever the engine's
health. -/
theorem c10_empty_batch_always_fails :
    (∀ (engineOk : Bool) (table : List Hit),
        saveHits engineOk table [] = Except.error ()) ∧
    hitQueryFinal [] = hitInsertHeader.dropRight 1 ∧
    buildHitArgs [] = [] := by
  refine ⟨fun engineOk table => saveHits_empty_fails engineOk table, ?_, rfl⟩
  show (hitInsertHeader ++ hitQueryBody 0).dropRight 1 = hitInsertHeader.dropRight 1
  have h0 : hitQueryBody 0 = "" := rfl
  rw [h0]
  have happ : hitInsertHeader ++ "" = hitInsertHeader := by
    apply String.ext
    simp [String.data_append]
  rw [happ]

end Pirsch
